import Mathlib

/-!
Shallow embedding of `tracker/views.py` from the cryptocurrency transaction
tracker repository, together with theorems settling the specification claims
about its Wallet Activity Resolver (`last10_from_tx`), transaction classifier
(`analyze_tx_source`) and explorer fallback (`fetch_last_txs_from_explorer`).

External effects (environment variables, the per-chain JSON-RPC node, the
Arkham labelling service, the block-explorer HTTP API) are modelled as oracle
functions gathered in a `World` record; the Python view functions become pure
Lean functions of the `World` and the request parameters.  Python integers are
`Int`, optional/None-able strings are `Option String`, and Python truthiness
tests on such values are made explicit through `pyTruthy`.  Floating point
derived fields of the view context (`value_eth`, `total_value_eth`, the chart
payload) are display-only and are not part of the model; no claim concerns
them.
-/

set_option linter.unusedVariables false

/-- Python truthiness of a possibly-absent string: `None` and `""` are falsy. -/
def pyTruthy (s : Option String) : Bool :=
  s.getD "" != ""

/-- Drop leading whitespace characters. -/
def dropLeadingWs : List Char → List Char
  | [] => []
  | c :: cs => if c.isWhitespace then dropLeadingWs cs else c :: cs

/-- Python `str.strip()`: remove leading and trailing whitespace. -/
def pyStrip (s : String) : String :=
  ⟨(dropLeadingWs (dropLeadingWs s.data).reverse).reverse⟩

/-- Python `s.startswith(p)`. -/
def strStartsWith (s p : String) : Bool :=
  p.data.isPrefixOf s.data

/-- Python `s.lower()` (ASCII case folding, which is all the addresses and
chain names involved need). -/
def strToLower (s : String) : String :=
  ⟨s.data.map Char.toLower⟩

/-- Accumulating decimal-digit parser; `none` until at least one digit. -/
def parseDigits : List Char → Option Nat → Option Nat
  | [], acc => acc
  | c :: cs, acc =>
    if c.isDigit then
      parseDigits cs (some ((acc.getD 0) * 10 + (c.toNat - 48)))
    else none

/-- Python `int(s)` on a decimal string with optional sign: the integer, or
`none` for the strings on which `int` raises `ValueError` (empty or
non-numeric). -/
def pyIntParse (s : String) : Option Int :=
  match s.data with
  | '-' :: rest => (parseDigits rest none).map (fun n => -(n : Int))
  | '+' :: rest => (parseDigits rest none).map (fun n => (n : Int))
  | l => (parseDigits l none).map (fun n => (n : Int))

/-- A transaction object as returned by the node RPC client
(`web3` AttributeDict / dict).  `fromAddr`/`toAddr` model the `"from"`/`"to"`
keys, `dataField` the alternative `"data"` key consulted by the classifier. -/
structure Tx where
  hash : Option String := none
  fromAddr : Option String := none
  toAddr : Option String := none
  value : Int := 0
  gas : Int := 0
  input : Option String := none
  dataField : Option String := none
  blockNumber : Option Int := none
deriving DecidableEq

/-- A block as returned by `w3.eth.get_block(n, full_transactions=True)`. -/
structure Block where
  timestamp : Option Int := none
  transactions : List Tx := []
deriving DecidableEq

/-- Per-chain node behaviour: connectivity of the RPC endpoint, transaction
lookup (`None` models both "not found" and a raised exception, which the
callers treat identically), current head number, and block fetch
(`None` models a raised exception / missing block). -/
structure NodeState where
  connected : Bool := false
  get_transaction : String → Option Tx := fun _ => none
  block_number : Int := 0
  get_block : Int → Option Block := fun _ => none

/-- One entry of the explorer API `result` array; Etherscan-family APIs return
all numeric fields as strings. -/
structure ExplorerTx where
  hash : Option String := none
  fromAddr : Option String := none
  toAddr : Option String := none
  value : Option String := none
  gas : Option String := none
  blockNumber : Option String := none
  timeStamp : Option String := none
  input : Option String := none
deriving DecidableEq

/-- Parsed JSON body of an explorer API response.  `result = some l` models a
JSON list; `result = none` models a non-list `result` field. -/
structure ExplorerResponse where
  status : String := "0"
  result : Option (List ExplorerTx) := none
deriving DecidableEq

/-- One entry of the `EXPLORER_APIS` table in `views.py`. -/
structure ExplorerCfg where
  api_base : String
  env_key : String
  explorer_tx : String
  explorer_addr : String
deriving DecidableEq

/-- The external world: `env` is `os.getenv`, `node` gives the behaviour of
the RPC node behind each chain name, `arkham` is the entity-label lookup
(`none` covering "no label" and any swallowed HTTP failure), and `explorer`
is the explorer API HTTP response per chain (`none` models a failed
request / unparseable body). -/
structure World where
  env : String → Option String := fun _ => none
  node : String → NodeState := fun _ => {}
  arkham : String → Option String := fun _ => none
  explorer : String → Option ExplorerResponse := fun _ => none

/-- The `RPC_ENDPOINTS` module-level dict: chain name to `os.getenv(...)`. -/
def RPC_ENDPOINTS (env : String → Option String) : List (String × Option String) :=
  [("Ethereum Mainnet", env "WEB3_MAINNET"),
   ("Sepolia Testnet", env "WEB3_SEPOLIA"),
   ("Polygon Mainnet", env "WEB3_POLYGON"),
   ("Binance Smart Chain", env "WEB3_BSC")]

/-- `list(RPC_ENDPOINTS.keys())` in the registry's fixed insertion order. -/
def RPC_keys : List String :=
  ["Ethereum Mainnet", "Sepolia Testnet", "Polygon Mainnet", "Binance Smart Chain"]

/-- `RPC_ENDPOINTS.get(name)`: exact-key dict lookup; absent key and a key
mapped to an unset environment variable both come out as `none`
(Python conflates them as `None`). -/
def rpc_get (env : String → Option String) (name : String) : Option String :=
  match (RPC_ENDPOINTS env).lookup name with
  | some v => v
  | none => none

/-- The `EXPLORER_APIS` module-level dict (URL templates keep the Python
`str.format` placeholder, written here as the escaped brace pair). -/
def EXPLORER_APIS : List (String × ExplorerCfg) :=
  [("Ethereum Mainnet",
    { api_base := "https://api.etherscan.io/api", env_key := "ETHERSCAN_API_KEY",
      explorer_tx := "https://etherscan.io/tx/\x7b\x7d",
      explorer_addr := "https://etherscan.io/address/\x7b\x7d" }),
   ("Sepolia Testnet",
    { api_base := "https://api-sepolia.etherscan.io/api", env_key := "ETHERSCAN_API_KEY",
      explorer_tx := "https://sepolia.etherscan.io/tx/\x7b\x7d",
      explorer_addr := "https://sepolia.infura.io/address/\x7b\x7d" }),
   ("Polygon Mainnet",
    { api_base := "https://api.polygonscan.com/api", env_key := "POLYGONSCAN_API_KEY",
      explorer_tx := "https://polygonscan.com/tx/\x7b\x7d",
      explorer_addr := "https://polygonscan.com/address/\x7b\x7d" }),
   ("Binance Smart Chain",
    { api_base := "https://api.bscscan.com/api", env_key := "BSCSCAN_API_KEY",
      explorer_tx := "https://bscscan.com/tx/\x7b\x7d",
      explorer_addr := "https://bscscan.com/address/\x7b\x7d" })]

/-- `EXPLORER_APIS.get(name)`. -/
def explorer_get (name : String) : Option ExplorerCfg :=
  EXPLORER_APIS.lookup name

/-- Truthiness of the module-level `ARKHAM_KEY = os.getenv("ARKHAM_API_KEY")`. -/
def arkham_key (w : World) : Bool :=
  pyTruthy (w.env "ARKHAM_API_KEY")

/-- `arkham_label_for(address)`: returns `None` for a falsy address or absent
key; otherwise the oracle result (which already folds in the swallowed
request/parsing failures of the Python `try/except`). -/
def arkham_label_for (w : World) (address : String) : Option String :=
  if address = "" ∨ arkham_key w = false then none
  else w.arkham address

/-- `tx_obj.get("input") or tx_obj.get("data") or ""` from
`analyze_tx_source`. -/
def tx_input_data (t : Tx) : String :=
  if pyTruthy t.input then t.input.getD ""
  else if pyTruthy t.dataField then t.dataField.getD "" else ""

/-- The call-data heuristic tail of `analyze_tx_source` (the code run when no
entity label takes over), in source order: empty-or-`"0x"` input, the ERC-20
`transfer` selector, the ERC-721 `transferFrom` selector, falsy `to`, then
the default. -/
def classify_heuristic (t : Tx) : String :=
  let input_data := tx_input_data t
  if input_data = "" ∨ input_data = "0x" then "Transfer"
  else if strStartsWith input_data "0xa9059cbb" ∨ strStartsWith input_data "a9059cbb" then
    "ERC-20 Transfer"
  else if strStartsWith input_data "0x23b872dd" ∨ strStartsWith input_data "23b872dd" then
    "ERC-721 Transfer"
  else if pyTruthy t.toAddr = false then "Contract creation"
  else "Contract Interaction"

/-- `analyze_tx_source(tx_obj, w3)`: Arkham label override first (when the
key is configured and the lookup yields a truthy label), then the call-data
heuristics in source order. -/
def analyze_tx_source (w : World) (t : Tx) : String :=
  let srcLbl : Option String :=
    if arkham_key w && pyTruthy t.fromAddr then
      match arkham_label_for w (t.fromAddr.getD "") with
      | some l => if l != "" then some l else none
      | none => none
    else none
  match srcLbl with
  | some lbl => "Source: " ++ lbl
  | none =>
    let dstLbl : Option String :=
      if arkham_key w && pyTruthy t.toAddr then
        match arkham_label_for w (t.toAddr.getD "") with
        | some l => if l != "" then some l else none
        | none => none
      else none
    match dstLbl with
    | some lbl => "Dest: " ++ lbl
    | none => classify_heuristic t

/-- One collected row of the result (`tx_info` dict built by
`last10_from_tx`); `value_eth` and the chart fields are display-only floats
and omitted. -/
structure TxInfo where
  hash : Option String := none
  fromAddr : Option String := none
  toAddr : Option String := none
  value_wei : Int := 0
  gas : Int := 0
  block : Int := 0
  timestamp : Option Int := none
  input : String := ""
  source : String := ""
  explorer_url : Option String := none
  to_explorer_url : Option String := none
deriving DecidableEq

/-- The `tx_info` built inside the node-scan loop for a qualifying
transaction `t` of block `block_num` (timestamp rendering keeps the
`if block_ts` truthiness test, under which timestamp `0` becomes `None`). -/
def mk_tx_info (w : World) (block_ts : Option Int) (block_num : Int) (t : Tx) : TxInfo :=
  { hash := t.hash
    fromAddr := t.fromAddr
    toAddr := t.toAddr
    value_wei := t.value
    gas := t.gas
    block := block_num
    timestamp := match block_ts with
      | some n => if n = 0 then none else some n
      | none => none
    input := t.input.getD ""
    source := analyze_tx_source w t }

/-- The `for t in block.transactions` body of the backward scan: skip
transactions with a falsy `from`, append a `tx_info` for each transaction
whose `from` or truthy `to` equals the wallet case-insensitively, and break
once 10 rows are collected. -/
def collect_from_txs (w : World) (wallet : String) (block_ts : Option Int) (block_num : Int) :
    List Tx → List TxInfo → List TxInfo
  | [], collected => collected
  | t :: rest, collected =>
    if pyTruthy t.fromAddr = false then
      collect_from_txs w wallet block_ts block_num rest collected
    else if (pyTruthy t.fromAddr && (strToLower (t.fromAddr.getD "") == strToLower wallet))
        || (pyTruthy t.toAddr && (strToLower (t.toAddr.getD "") == strToLower wallet)) then
      let collected2 := collected ++ [mk_tx_info w block_ts block_num t]
      if 10 ≤ collected2.length then collected2
      else collect_from_txs w wallet block_ts block_num rest collected2
    else collect_from_txs w wallet block_ts block_num rest collected

/-- `safety_limit = 8000`, the ceiling on blocks examined per resolution. -/
def safety_limit : Nat := 8000

/-- The `while block_num >= 0 and len(collected) < 10 and scanned < safety_limit`
loop.  The Python counter `scanned` (starting at 0, incremented once per
iteration) is represented by the structurally decreasing `fuel =
safety_limit - scanned`, so the `scanned < safety_limit` conjunct of the
guard is exactly `fuel > 0`.  A failed block fetch (`none`) leaves the
accumulator unchanged and moves on, exactly like the `except: continue`
branch.  Returns the final accumulator together with the number of loop
iterations executed (the increase of `scanned`). -/
def scan_go (w : World) (node : NodeState) (wallet : String) :
    Nat → Int → List TxInfo → List TxInfo × Nat
  | 0, _, collected => (collected, 0)
  | fuel + 1, block_num, collected =>
    if 0 ≤ block_num ∧ collected.length < 10 then
      match node.get_block block_num with
      | none =>
        let r := scan_go w node wallet fuel (block_num - 1) collected
        (r.1, r.2 + 1)
      | some block =>
        let collected2 :=
          collect_from_txs w wallet block.timestamp block_num block.transactions collected
        let r := scan_go w node wallet fuel (block_num - 1) collected2
        (r.1, r.2 + 1)
    else (collected, 0)

/-- `int(base_tx.get("blockNumber") or w3.eth.block_number)`: the Python `or`
falls through to the chain head both when the block number is absent and when
it is the falsy integer `0`. -/
def start_block (base_tx : Tx) (head : Int) : Int :=
  match base_tx.blockNumber with
  | some n => if n = 0 then head else n
  | none => head

/-- `fetch_last_txs_from_explorer(chain_name, address, limit)`: `none` when
the chain has no explorer config, the API key env var is missing/empty, or
the HTTP request fails; `some []` when the API answers with a non-"1" status
or a non-list result; otherwise the result list verbatim. -/
def fetch_last_txs_from_explorer (w : World) (chain_name : String) (address : String)
    (limit : Nat := 10) : Option (List ExplorerTx) :=
  match explorer_get chain_name with
  | none => none
  | some cfg =>
    match w.env cfg.env_key with
    | none => none
    | some key =>
      if key = "" then none
      else
        match w.explorer chain_name with
        | none => none
        | some data =>
          if data.status = "1" then
            match data.result with
            | some l => some l
            | none => some []
          else some []

/-- Substitute the argument for each open-close brace placeholder pair. -/
def substPlaceholder : List Char → List Char → List Char
  | [], _ => []
  | '\x7b' :: '\x7d' :: rest, a => a ++ substPlaceholder rest a
  | c :: rest, a => c :: substPlaceholder rest a

/-- Python `template.format(arg)` for the single-placeholder URL templates. -/
def pyFormat (template arg : String) : String :=
  ⟨substPlaceholder template.data arg.data⟩

/-- Python string interpolation of a possibly-`None` value. -/
def pyStrOfOpt : Option String → String
  | some v => v
  | none => "None"

/-- `int(x or 0)` wrapped in `try/except` defaulting to 0: the guarded
parse used for the explorer `value` field. -/
def pyIntOfStrOr0 : Option String → Int
  | none => 0
  | some s => if s = "" then 0 else (pyIntParse s).getD 0

/-- `int(x or 0)` with no exception handler: the unguarded parses used for
the explorer `gas`/`blockNumber` fields; an unparseable non-empty string
raises `ValueError`. -/
def pyIntStrict : Option String → Except String Int
  | none => .ok 0
  | some s =>
    if s = "" then .ok 0
    else
      match pyIntParse s with
      | some n => .ok n
      | none => .error "ValueError"

/-- The explorer `timeStamp` rendering:
`datetime.fromtimestamp(int(x or 0), ...) if x else None`; the timestamp is
kept as the parsed integer, a falsy field becomes an absent timestamp, and a
truthy unparseable field raises. -/
def pyTsOpt : Option String → Except String (Option Int)
  | none => .ok none
  | some s =>
    if s = "" then .ok none
    else
      match pyIntParse s with
      | some n => .ok (some n)
      | none => .error "ValueError"

/-- Mapping of one explorer transaction into a `tx_info` row
(`views.py` lines 419-441).  Only the `value` parse sits inside a
`try/except`; `gas`, `blockNumber` and a truthy `timeStamp` are parsed
unguarded (in that source order) and an unparseable string propagates as an
uncaught error, as does an absent explorer config at the URL-formatting
lines. -/
def map_explorer_tx (cfg : Option ExplorerCfg) (et : ExplorerTx) : Except String TxInfo :=
  match pyIntStrict et.gas, pyIntStrict et.blockNumber, pyTsOpt et.timeStamp, cfg with
  | .ok gasV, .ok blockV, .ok ts, some c =>
    .ok
      { hash := et.hash
        fromAddr := et.fromAddr
        toAddr := et.toAddr
        value_wei := pyIntOfStrOr0 et.value
        gas := gasV
        block := blockV
        timestamp := ts
        input := et.input.getD ""
        source := "Explorer (raw)"
        explorer_url := some (pyFormat c.explorer_tx (pyStrOfOpt et.hash))
        to_explorer_url :=
          if pyTruthy et.toAddr then some (pyFormat c.explorer_addr (et.toAddr.getD ""))
          else none }
  | .error e, _, _, _ => .error e
  | _, .error e, _, _ => .error e
  | _, _, .error e, _ => .error e
  | _, _, _, none => .error "TypeError"

/-- The `for et in explorer_txs` mapping loop; the first raising entry aborts
the whole request. -/
def map_explorer_list (cfg : Option ExplorerCfg) : List ExplorerTx → Except String (List TxInfo)
  | [] => .ok []
  | et :: rest =>
    match map_explorer_tx cfg et with
    | .error e => .error e
    | .ok x =>
      match map_explorer_list cfg rest with
      | .error e => .error e
      | .ok xs => .ok (x :: xs)

/-- The key order used at `sorted(collected, key=..., reverse=True)`:
`a` precedes `b` when `a`'s block number is at least `b`'s.  (For `Int`
blocks, Python's `x.get("block") or 0` is the identity on the key.) -/
def txKeyGe (a b : TxInfo) : Prop := b.block ≤ a.block

instance : DecidableRel txKeyGe := fun a b => Int.decLe b.block a.block

instance : IsTotal TxInfo txKeyGe := ⟨fun a b => le_total b.block a.block⟩

instance : IsTrans TxInfo txKeyGe := ⟨fun _ _ _ h1 h2 => le_trans h2 h1⟩

/-- Python's stable `sorted(collected, key=lambda x: x.get("block") or 0,
reverse=True)`, realised as a stable insertion sort on the descending key
order. -/
def pySortDesc (l : List TxInfo) : List TxInfo := List.insertionSort txKeyGe l

/-- The fields of the view context relevant to a successful resolution;
`from_explorer` records which branch filled `collected`
(the spec's `source_of_truth`). -/
structure ResultCtx where
  wallet : String
  chain : String
  txs : List TxInfo
  tx_count : Nat
  from_explorer : Bool
deriving DecidableEq

/-- The distinguishable outcomes of a `last10_from_tx` request: the rendered
error messages of the view, an uncaught Python exception (HTTP 500), or a
successful context. -/
inductive ResolveOutcome where
  | empty_query
  | invalid_hash
  | not_found
  | no_source_addr
  | fallback_unavailable
  | no_activity
  | no_recent
  | uncaught (msg : String)
  | success (ctx : ResultCtx)
deriving DecidableEq

/-- Final assembly (`views.py` lines 443-473): the emptiness re-check, the
descending stable sort and the truncation to 10 rows. -/
def assemble (wallet chain_name : String) (collected : List TxInfo)
    (from_explorer : Bool) : ResolveOutcome :=
  if collected.isEmpty then .no_recent
  else
    let s := (pySortDesc collected).take 10
    .success { wallet := wallet, chain := chain_name, txs := s, tx_count := s.length,
               from_explorer := from_explorer }

/-- Step 3 of the resolver (`views.py` lines 407-441): when the node scan
collected nothing, consult the explorer; a `None` answer renders the
configuration error, an empty answer renders the no-transactions error, and a
non-empty answer is mapped row by row (possibly raising) and assembled. -/
def fallback_and_assemble (w : World) (chain_name wallet : String)
    (collected : List TxInfo) : ResolveOutcome :=
  if collected.isEmpty then
    match fetch_last_txs_from_explorer w chain_name wallet 10 with
    | none => .fallback_unavailable
    | some ets =>
      if ets.isEmpty then .no_activity
      else
        match map_explorer_list (explorer_get chain_name) ets with
        | .error e => .uncaught e
        | .ok mapped => assemble wallet chain_name mapped true
  else assemble wallet chain_name collected false

/-- The resolver once the seed transaction has been located on a chain
(`views.py` lines 334 onward): derive the wallet from the seed's `from`,
determine the starting block, run the backward scan, then fall back and
assemble. -/
def resolve_with_base (w : World) (chain_name : String) (base_tx : Tx) : ResolveOutcome :=
  if pyTruthy base_tx.fromAddr = false then .no_source_addr
  else
    let from_addr := base_tx.fromAddr.getD ""
    let node := w.node chain_name
    let sb := start_block base_tx node.block_number
    let scanRes := scan_go w node from_addr safety_limit sb []
    fallback_and_assemble w chain_name from_addr scanRes.1

/-- `[selected_chain] if selected_chain else list(RPC_ENDPOINTS.keys())`. -/
def chains_to_search (selected_chain : Option String) : List String :=
  if pyTruthy selected_chain then [selected_chain.getD ""] else RPC_keys

/-- Step 1 of the resolver (`views.py` lines 309-328): walk the candidate
chains in order; a missing/empty RPC url, a disconnected node or a failed
transaction lookup advances to the next chain; the first hit wins. -/
def find_base (w : World) (tx_hash : String) : List String → Option (String × Tx)
  | [] => none
  | chain_name :: rest =>
    match rpc_get w.env chain_name with
    | none => find_base w tx_hash rest
    | some rpc =>
      if rpc = "" then find_base w tx_hash rest
      else if (w.node chain_name).connected = false then find_base w tx_hash rest
      else
        match (w.node chain_name).get_transaction tx_hash with
        | none => find_base w tx_hash rest
        | some t => some (chain_name, t)

/-- The full `last10_from_tx` view: strip the query, the
`not tx_hash.startswith("0x") or len(tx_hash) < 10` format check, the chain
search, then the located-seed resolver. -/
def last10_from_tx (w : World) (q : Option String) (selected_chain : Option String) :
    ResolveOutcome :=
  let tx_hash := pyStrip (q.getD "")
  if tx_hash = "" then .empty_query
  else if strStartsWith tx_hash "0x" = false ∨ tx_hash.length < 10 then .invalid_hash
  else
    match find_base w tx_hash (chains_to_search selected_chain) with
    | none => .not_found
    | some (chain_name, base_tx) => resolve_with_base w chain_name base_tx

/-- The hash validation used by the sibling `tx_search` view
(`views.py` line 226): `query.startswith("0x") and len(query) == 66`. -/
def tx_search_valid (query : String) : Bool :=
  strStartsWith query "0x" && query.length == 66

/-- A result row case-insensitively touching the wallet on its `from` or
(truthy) `to` side — the qualification test of the backward scan, read off a
`TxInfo`. -/
def matches_wallet (wallet : String) (x : TxInfo) : Prop :=
  (pyTruthy x.fromAddr = true ∧ strToLower (x.fromAddr.getD "") = strToLower wallet)
  ∨ (pyTruthy x.toAddr = true ∧ strToLower (x.toAddr.getD "") = strToLower wallet)

instance (wallet : String) (x : TxInfo) : Decidable (matches_wallet wallet x) := by
  unfold matches_wallet; infer_instance

/-- `Except.isOk` as a plain boolean on the mapping result. -/
def exceptOk : Except String TxInfo → Bool
  | .ok _ => true
  | .error _ => false

/-- An explorer numeric field that the unguarded `int(x or 0)` accepts:
absent, empty, or a parseable integer string. -/
def explorer_num_ok : Option String → Bool
  | none => true
  | some s => s == "" || (pyIntParse s).isSome

/-! ### Concrete instances used by witnesses and counterexamples -/

/-- A well-formed 66-character seed hash. -/
def seedHash : String :=
  "0xaaaaaaaaaaaaaaaaaaaaaaaaaaaaaaaaaaaaaaaaaaaaaaaaaaaaaaaaaaaaaaaa"

/-- A wallet address in mixed case (the scan compares case-insensitively). -/
def walletA : String := "0xAbCd"

def txOther2 : Tx :=
  { hash := some "0xh2b", fromAddr := some "0xzz", toAddr := some "0xyy" }

def txMatch2 : Tx :=
  { hash := some "0xh2", fromAddr := some "0xabcd", toAddr := some "0xother",
    value := 7, gas := 21000, input := some "" }

def txMatch1 : Tx :=
  { hash := some "0xh1", fromAddr := some "0xqq", toAddr := some "0xABCD",
    value := 3, gas := 21000 }

def blockB2 : Block := { timestamp := some 500, transactions := [txOther2, txMatch2] }

def blockB1 : Block := { timestamp := some 400, transactions := [txMatch1] }

def blockB0 : Block := { timestamp := some 300, transactions := [] }

def seedTxA : Tx :=
  { hash := some seedHash, fromAddr := some walletA, blockNumber := some 2, value := 5 }

def node4 : NodeState :=
  { connected := true
    get_transaction := fun h => if h = seedHash then some seedTxA else none
    block_number := 9
    get_block := fun n =>
      if n = 2 then some blockB2
      else if n = 1 then some blockB1
      else if n = 0 then some blockB0
      else none }

/-- Environment with only the mainnet RPC configured (no explorer keys). -/
def envA : String → Option String := fun k =>
  if k = "WEB3_MAINNET" then some "http://node" else none

/-- Environment with the mainnet RPC and the Etherscan key configured. -/
def envFull : String → Option String := fun k =>
  if k = "WEB3_MAINNET" then some "http://node"
  else if k = "ETHERSCAN_API_KEY" then some "test-key" else none

/-- Attach a node behaviour to Ethereum Mainnet only. -/
def nodeOnEth (n : NodeState) : String → NodeState :=
  fun c => if c = "Ethereum Mainnet" then n else {}

def worldA : World := { env := envA, node := nodeOnEth node4 }

def rowA2 : TxInfo :=
  { hash := some "0xh2", fromAddr := some "0xabcd", toAddr := some "0xother",
    value_wei := 7, gas := 21000, block := 2, timestamp := some 500, input := "",
    source := "Transfer" }

def rowA1 : TxInfo :=
  { hash := some "0xh1", fromAddr := some "0xqq", toAddr := some "0xABCD",
    value_wei := 3, gas := 21000, block := 1, timestamp := some 400, input := "",
    source := "Transfer" }

def ctxA : ResultCtx :=
  { wallet := walletA, chain := "Ethereum Mainnet", txs := [rowA2, rowA1], tx_count := 2,
    from_explorer := false }

/-- Seed that sits in block 0: its block number is falsy in Python. -/
def seedTx4 : Tx := { hash := some seedHash, fromAddr := some "0xdead", blockNumber := some 0 }

def txMatch4 : Tx := { hash := some "0xh4", fromAddr := some "0xdead", value := 1, gas := 2 }

def node40 : NodeState :=
  { connected := true
    get_transaction := fun h => if h = seedHash then some seedTx4 else none
    block_number := 1
    get_block := fun n =>
      if n = 1 then some { timestamp := some 100, transactions := [txMatch4] }
      else if n = 0 then some { timestamp := some 90, transactions := [] }
      else none }

def world4 : World := { env := envA, node := nodeOnEth node40 }

def row4 : TxInfo :=
  { hash := some "0xh4", fromAddr := some "0xdead", toAddr := none,
    value_wei := 1, gas := 2, block := 1, timestamp := some 100, input := "",
    source := "Transfer" }

def ctx4 : ResultCtx :=
  { wallet := "0xdead", chain := "Ethereum Mainnet", txs := [row4], tx_count := 1,
    from_explorer := false }

/-- Node on which the seed is found at block 1 but every block fetch fails,
so the backward scan collects nothing. -/
def seedTxE : Tx := { hash := some seedHash, fromAddr := some "0xabcd", blockNumber := some 1 }

def nodeE : NodeState :=
  { connected := true
    get_transaction := fun h => if h = seedHash then some seedTxE else none
    block_number := 5
    get_block := fun _ => none }

/-- Zero-match scan and no explorer API key configured. -/
def w1a : World := { env := envA, node := nodeOnEth nodeE }

/-- Zero-match scan, key configured, explorer answers with status "0". -/
def w1b : World :=
  { env := envFull, node := nodeOnEth nodeE
    explorer := fun c =>
      if c = "Ethereum Mainnet" then some { status := "0", result := none } else none }

/-- Explorer transaction whose `gas` the unguarded `int(...)` cannot parse. -/
def etBadGas : ExplorerTx := { hash := some "0xeh", gas := some "bad" }

/-- Zero-match scan, key configured, explorer returns one unparseable row. -/
def w1c : World :=
  { env := envFull, node := nodeOnEth nodeE
    explorer := fun c =>
      if c = "Ethereum Mainnet" then some { status := "1", result := some [etBadGas] }
      else none }

/-- A well-formed explorer transaction touching neither side of the wallet. -/
def etForeign : ExplorerTx :=
  { hash := some "0xe1", fromAddr := some "0xZZ1", toAddr := some "0xZZ2",
    value := some "5", gas := some "21000", blockNumber := some "7",
    timeStamp := some "1000" }

/-- Zero-match scan, key configured, explorer returns `etForeign`. -/
def w3c : World :=
  { env := envFull, node := nodeOnEth nodeE
    explorer := fun c =>
      if c = "Ethereum Mainnet" then some { status := "1", result := some [etForeign] }
      else none }

def row3c : TxInfo :=
  { hash := some "0xe1", fromAddr := some "0xZZ1", toAddr := some "0xZZ2",
    value_wei := 5, gas := 21000, block := 7, timestamp := some 1000, input := "",
    source := "Explorer (raw)",
    explorer_url := some "https://etherscan.io/tx/0xe1",
    to_explorer_url := some "https://etherscan.io/address/0xZZ2" }

def ctx3c : ResultCtx :=
  { wallet := "0xabcd", chain := "Ethereum Mainnet", txs := [row3c], tx_count := 1,
    from_explorer := true }

/-- Node that has a (malformed, `from`-less) transaction under the 12-character
hash accepted by the resolver's loose format check. -/
def node2b : NodeState :=
  { connected := true
    get_transaction := fun h => if h = "0x1234567890" then some {} else none }

def w2b : World := { env := envA, node := nodeOnEth node2b }

/-- Explorer transaction whose `blockNumber` the unguarded `int(...)` cannot
parse. -/
def etBadBlock : ExplorerTx := { hash := some "0xe9", blockNumber := some "xyz" }

/-- Explorer transaction with an unparseable `value` (guarded, defaults to 0)
and all other numeric fields absent. -/
def etGood10 : ExplorerTx := { hash := some "0xe7", value := some "abc" }

/-- The Ethereum Mainnet explorer configuration (first `EXPLORER_APIS` entry). -/
def ethCfg : ExplorerCfg :=
  { api_base := "https://api.etherscan.io/api", env_key := "ETHERSCAN_API_KEY",
    explorer_tx := "https://etherscan.io/tx/\x7b\x7d",
    explorer_addr := "https://etherscan.io/address/\x7b\x7d" }

/-- A transaction carrying an ERC-20 `transfer` selector in its call data. -/
def txErc20 : Tx := { input := some "0xa9059cbb00ff", toAddr := some "0xc0" }

/-- A world with the Arkham key set and one labelled address. -/
def wLbl : World :=
  { env := fun k => if k = "ARKHAM_API_KEY" then some "ak" else none
    arkham := fun a => if a = "0xf1" then some "Binance" else none }

def txLbl : Tx := { fromAddr := some "0xf1" }

/-! ### Helper lemmas -/

theorem filter_orderedInsert (k : Int) (a : TxInfo) (l : List TxInfo) :
    (List.orderedInsert txKeyGe a l).filter (fun x => x.block == k)
      = if a.block == k then a :: l.filter (fun x => x.block == k)
        else l.filter (fun x => x.block == k) := by
  induction l with
  | nil => simp [List.orderedInsert, List.filter_cons]
  | cons b l ih =>
    by_cases hr : txKeyGe a b
    · simp only [List.orderedInsert, if_pos hr, List.filter_cons]
    · simp only [List.orderedInsert, if_neg hr, List.filter_cons, ih]
      have hlt : a.block < b.block := lt_of_not_le hr
      by_cases hak : a.block = k
      · have hbk : ¬ (b.block = k) := fun h => absurd (h.trans hak.symm) (ne_of_gt hlt)
        simp [hak, hbk, List.filter_cons]
      · by_cases hbk : b.block = k <;> simp [hak, hbk, List.filter_cons]

theorem filter_pySortDesc (k : Int) (l : List TxInfo) :
    (pySortDesc l).filter (fun x => x.block == k) = l.filter (fun x => x.block == k) := by
  induction l with
  | nil => rfl
  | cons a l ih =>
    have : pySortDesc (a :: l) = List.orderedInsert txKeyGe a (pySortDesc l) := rfl
    rw [this, filter_orderedInsert, ih, List.filter_cons]

theorem pySortDesc_sorted (l : List TxInfo) : List.Pairwise txKeyGe (pySortDesc l) :=
  List.sorted_insertionSort txKeyGe l

theorem pySortDesc_perm (l : List TxInfo) : (pySortDesc l).Perm l :=
  List.perm_insertionSort txKeyGe l

theorem mem_of_mem_take_sort {x : TxInfo} {l : List TxInfo} (n : Nat)
    (h : x ∈ (pySortDesc l).take n) : x ∈ l :=
  (pySortDesc_perm l).mem_iff.1 (List.take_subset n _ h)

theorem assemble_success {wallet cn : String} {col : List TxInfo} {fe : Bool} {ctx : ResultCtx}
    (h : assemble wallet cn col fe = .success ctx) :
    ctx.wallet = wallet ∧ ctx.chain = cn ∧ ctx.txs = (pySortDesc col).take 10
      ∧ ctx.tx_count = ctx.txs.length ∧ ctx.from_explorer = fe := by
  unfold assemble at h
  split at h
  · cases h
  · injection h with h2
    subst h2
    exact ⟨rfl, rfl, rfl, rfl, rfl⟩

theorem scan_go_count_le (w : World) (node : NodeState) (wallet : String) :
    ∀ (fuel : Nat) (b : Int) (c : List TxInfo), (scan_go w node wallet fuel b c).2 ≤ fuel := by
  intro fuel
  induction fuel with
  | zero => intro b c; simp [scan_go]
  | succ n ih =>
    intro b c
    simp only [scan_go]
    split
    · cases hgb : node.get_block b with
      | none => simpa [hgb] using Nat.succ_le_succ (ih (b - 1) c)
      | some blk => simpa [hgb] using Nat.succ_le_succ (ih (b - 1) _)
    · simp

theorem scan_go_stop (w : World) (node : NodeState) (wallet : String) :
    ∀ (fuel : Nat) (b : Int) (c : List TxInfo),
      (scan_go w node wallet fuel b c).2 = fuel
      ∨ b - (scan_go w node wallet fuel b c).2 < 0
      ∨ 10 ≤ (scan_go w node wallet fuel b c).1.length := by
  intro fuel
  induction fuel with
  | zero => intro b c; left; simp [scan_go]
  | succ n ih =>
    intro b c
    simp only [scan_go]
    split
    · cases hgb : node.get_block b with
      | none =>
        simp only [hgb]
        rcases ih (b - 1) c with h | h | h
        · left; simpa using h
        · right; left; omega
        · right; right; simpa using h
      | some blk =>
        simp only [hgb]
        rcases ih (b - 1) (collect_from_txs w wallet blk.timestamp b blk.transactions c)
          with h | h | h
        · left; simpa using h
        · right; left; omega
        · right; right; simpa using h
    · rename_i hguard
      rw [Classical.not_and_iff_or_not_not] at hguard
      rcases hguard with h | h
      · right; left; simpa using by omega
      · right; right; simpa using by omega

theorem mk_tx_info_matches {w : World} {ts : Option Int} {bn : Int} {t : Tx} {wallet : String}
    (hq : (pyTruthy t.fromAddr && (strToLower (t.fromAddr.getD "") == strToLower wallet)
        || (pyTruthy t.toAddr && (strToLower (t.toAddr.getD "") == strToLower wallet))) = true) :
    matches_wallet wallet (mk_tx_info w ts bn t) := by
  simp only [Bool.or_eq_true, Bool.and_eq_true, beq_iff_eq] at hq
  unfold matches_wallet mk_tx_info
  rcases hq with ⟨h1, h2⟩ | ⟨h1, h2⟩
  · exact Or.inl ⟨h1, h2⟩
  · exact Or.inr ⟨h1, h2⟩

theorem collect_mem {w : World} {wallet : String} {ts : Option Int} {bn : Int} :
    ∀ (l : List Tx) (c : List TxInfo) (x : TxInfo),
      x ∈ collect_from_txs w wallet ts bn l c →
      x ∈ c ∨ (matches_wallet wallet x ∧ x.block = bn) := by
  intro l
  induction l with
  | nil => intro c x hx; left; simpa [collect_from_txs] using hx
  | cons t rest ih =>
    intro c x hx
    simp only [collect_from_txs] at hx
    split at hx
    · exact ih c x hx
    · split at hx
      · rename_i hskip hq
        split at hx
        · rcases List.mem_append.1 hx with h | h
          · exact Or.inl h
          · right
            rw [List.mem_singleton] at h
            subst h
            exact ⟨mk_tx_info_matches hq, rfl⟩
        · rcases ih _ x hx with h | h
          · rcases List.mem_append.1 h with h | h
            · exact Or.inl h
            · right
              rw [List.mem_singleton] at h
              subst h
              exact ⟨mk_tx_info_matches hq, rfl⟩
          · exact Or.inr h
      · exact ih c x hx

theorem scan_mem {w : World} {node : NodeState} {wallet : String} :
    ∀ (fuel : Nat) (b : Int) (c : List TxInfo) (x : TxInfo),
      x ∈ (scan_go w node wallet fuel b c).1 →
      x ∈ c ∨ (matches_wallet wallet x ∧ x.block ≤ b) := by
  intro fuel
  induction fuel with
  | zero => intro b c x hx; left; simpa [scan_go] using hx
  | succ n ih =>
    intro b c x hx
    simp only [scan_go] at hx
    split at hx
    · split at hx
      · simp only [] at hx
        rcases ih (b - 1) c x hx with h | ⟨hm, hb⟩
        · exact Or.inl h
        · exact Or.inr ⟨hm, by omega⟩
      · simp only [] at hx
        rcases ih (b - 1) _ x hx with h | ⟨hm, hb⟩
        · rcases collect_mem _ _ _ h with h2 | ⟨hm2, hb2⟩
          · exact Or.inl h2
          · exact Or.inr ⟨hm2, by omega⟩
        · exact Or.inr ⟨hm, by omega⟩
    · left; simpa using hx

theorem fallback_success_assemble {w : World} {cn wallet : String} {col : List TxInfo}
    {ctx : ResultCtx} (h : fallback_and_assemble w cn wallet col = .success ctx) :
    ∃ col2 fe, assemble wallet cn col2 fe = ResolveOutcome.success ctx
      ∧ (ctx.from_explorer = false → col2 = col ∧ fe = false) := by
  unfold fallback_and_assemble at h
  split at h
  · split at h
    · cases h
    · split at h
      · cases h
      · split at h
        · cases h
        · refine ⟨_, true, h, fun hfe => ?_⟩
          have := (assemble_success h).2.2.2.2
          rw [hfe] at this
          cases this
  · exact ⟨col, false, h, fun _ => ⟨rfl, rfl⟩⟩

theorem resolve_node_scan {w : World} {cn : String} {bt : Tx} {ctx : ResultCtx}
    (h : resolve_with_base w cn bt = .success ctx) (hfe : ctx.from_explorer = false) :
    assemble (bt.fromAddr.getD "") cn
      (scan_go w (w.node cn) (bt.fromAddr.getD "") safety_limit
        (start_block bt (w.node cn).block_number) []).1 false
      = ResolveOutcome.success ctx := by
  unfold resolve_with_base at h
  split at h
  · cases h
  · obtain ⟨col2, fe, ha, himp⟩ := fallback_success_assemble h
    obtain ⟨rfl, rfl⟩ := himp hfe
    exact ha

theorem last10_success_assemble {w : World} {q sc : Option String} {ctx : ResultCtx}
    (h : last10_from_tx w q sc = .success ctx) :
    ∃ wallet cn col fe, assemble wallet cn col fe = ResolveOutcome.success ctx := by
  unfold last10_from_tx at h
  dsimp only at h
  split at h
  · cases h
  · split at h
    · cases h
    · split at h
      · cases h
      · rename_i cn bt heq
        unfold resolve_with_base at h
        split at h
        · cases h
        · obtain ⟨col2, fe, ha, -⟩ := fallback_success_assemble h
          exact ⟨_, _, _, _, ha⟩

/-- C5: the transactions sequence of every successful `ResolutionResult` has
at most 10 entries and is sorted by block number descending; it arises as the
stable descending sort of the accumulated list truncated to 10 entries, and
stability holds in the sense that restricting the sorted list to any single
block number returns exactly the accumulated transactions of that block in
their original accumulation order. -/
theorem C5_sorted_truncated {w : World} {q sc : Option String} {ctx : ResultCtx}
    (h : last10_from_tx w q sc = .success ctx) :
    ctx.txs.length ≤ 10
    ∧ List.Pairwise txKeyGe ctx.txs
    ∧ ∃ col, ctx.txs = (pySortDesc col).take 10
        ∧ ∀ k : Int, (pySortDesc col).filter (fun x => x.block == k)
            = col.filter (fun x => x.block == k) := by
  obtain ⟨wallet, cn, col, fe, ha⟩ := last10_success_assemble h
  obtain ⟨-, -, htxs, -, -⟩ := assemble_success ha
  refine ⟨?_, ?_, col, htxs, fun k => filter_pySortDesc k col⟩
  · rw [htxs, List.length_take]
    exact min_le_left _ _
  · rw [htxs]
    exact List.Pairwise.sublist (List.take_sublist _ _) (pySortDesc_sorted col)

/-- Witness for C5: the concrete two-transaction resolution on `worldA`. -/
theorem C5_witness : ctxA.txs.length ≤ 10 ∧ List.Pairwise txKeyGe ctxA.txs := by
  have h := @C5_sorted_truncated worldA (some seedHash) none ctxA (by decide)
  exact ⟨h.1, h.2.1⟩

/-- C3 (amended): every transaction in a successful result whose source is
the node scan has its from_address or to_address case-insensitively equal to
the resolved wallet address; explorer-fallback results carry the explorer's
rows verbatim with no such check (see the counterexample). -/
theorem C3_node_scan_matches {w : World} {cn : String} {bt : Tx} {ctx : ResultCtx}
    (h : resolve_with_base w cn bt = .success ctx) (hfe : ctx.from_explorer = false) :
    ∀ x ∈ ctx.txs, matches_wallet ctx.wallet x := by
  have ha := resolve_node_scan h hfe
  obtain ⟨hw, -, htxs, -, -⟩ := assemble_success ha
  intro x hx
  rw [htxs] at hx
  rcases scan_mem safety_limit _ [] x (mem_of_mem_take_sort 10 hx) with h0 | ⟨hm, -⟩
  · exact absurd h0 (List.not_mem_nil x)
  · rw [hw]
    exact hm

/-- Witness for C3: the mixed-case wallet of `worldA` matches its first
result row. -/
theorem C3_witness : matches_wallet ctxA.wallet rowA2 := by
  have h := @C3_node_scan_matches worldA "Ethereum Mainnet" seedTxA ctxA
    (by decide) (by decide)
  exact h rowA2 (by decide)

/-- Counterexample for C3 as stated: after a zero-match node scan the
explorer's rows are adopted verbatim, so a successful explorer-fallback
result can contain a transaction touching neither side of the wallet. -/
theorem C3_cex :
    last10_from_tx w3c (some seedHash) none = ResolveOutcome.success ctx3c
    ∧ row3c ∈ ctx3c.txs
    ∧ ¬ matches_wallet ctx3c.wallet row3c
    ∧ ctx3c.from_explorer = true :=
  ⟨by decide, by decide, by decide, rfl⟩

/-- C4 (amended): in a successful node-scan result every transaction's block
number is at most the scan's starting block, and the starting block equals
the seed transaction's block number whenever that number is present and
non-zero; a missing or zero seed block number (both falsy in Python) makes
the scan start at the chain head instead. -/
theorem C4_blocks_le_start {w : World} {cn : String} {bt : Tx} {ctx : ResultCtx}
    (h : resolve_with_base w cn bt = .success ctx) (hfe : ctx.from_explorer = false) :
    (∀ x ∈ ctx.txs, x.block ≤ start_block bt (w.node cn).block_number)
    ∧ (∀ B : Int, bt.blockNumber = some B → B ≠ 0 →
        start_block bt (w.node cn).block_number = B) := by
  constructor
  · have ha := resolve_node_scan h hfe
    obtain ⟨-, -, htxs, -, -⟩ := assemble_success ha
    intro x hx
    rw [htxs] at hx
    rcases scan_mem safety_limit _ [] x (mem_of_mem_take_sort 10 hx) with h0 | ⟨-, hb⟩
    · exact absurd h0 (List.not_mem_nil x)
    · exact hb
  · intro B hB hB0
    simp [start_block, hB, hB0]

/-- Witness for C4: on `worldA` the seed sits at block 2 and the collected
row of block 2 respects the bound. -/
theorem C4_witness :
    rowA2.block ≤ start_block seedTxA (worldA.node "Ethereum Mainnet").block_number := by
  have h := @C4_blocks_le_start worldA "Ethereum Mainnet" seedTxA ctxA
    (by decide) (by decide)
  exact h.1 rowA2 (by decide)

/-- Counterexample for C4 as stated: a seed transaction found at block 0 is
falsy under `base_tx.get("blockNumber") or w3.eth.block_number`, so the scan
starts at the chain head and the successful node-scan result contains a
transaction of block 1, exceeding the seed's block number 0. -/
theorem C4_cex :
    resolve_with_base world4 "Ethereum Mainnet" seedTx4 = ResolveOutcome.success ctx4
    ∧ seedTx4.blockNumber = some 0
    ∧ ctx4.txs.map TxInfo.block = [1]
    ∧ ctx4.from_explorer = false :=
  ⟨by decide, rfl, rfl, rfl⟩

theorem map_explorer_list_length {cfg : Option ExplorerCfg} :
    ∀ {ets : List ExplorerTx} {mapped : List TxInfo},
      map_explorer_list cfg ets = .ok mapped → mapped.length = ets.length := by
  intro ets
  induction ets with
  | nil =>
    intro mapped h
    simp only [map_explorer_list] at h
    injection h with h2
    subst h2
    rfl
  | cons et rest ih =>
    intro mapped h
    simp only [map_explorer_list] at h
    cases hx : map_explorer_tx cfg et with
    | error e => rw [hx] at h; cases h
    | ok x =>
      rw [hx] at h
      cases hxs : map_explorer_list cfg rest with
      | error e => rw [hxs] at h; cases h
      | ok xs =>
        rw [hxs] at h
        injection h with h2
        subst h2
        simp [ih hxs]

/-- C1 (amended): when the backward node scan collects zero qualifying
transactions the resolver becomes the explorer fallback step, whose three
outcomes stay distinct: an unavailable/misconfigured explorer gives
`fallback_unavailable`, an empty explorer answer gives `no_activity`, and a
non-empty explorer answer whose rows all map without raising gives a
successful result holding exactly those (sorted, truncated) rows; no
successful result arises from the first two outcomes.  (A non-empty answer
containing an unparseable row instead aborts with an uncaught error — see
the counterexample.) -/
theorem C1_explorer_outcomes (w : World) (chain_name wallet : String) :
    (∀ bt : Tx, pyTruthy bt.fromAddr = true → bt.fromAddr.getD "" = wallet →
      (scan_go w (w.node chain_name) wallet safety_limit
        (start_block bt (w.node chain_name).block_number) []).1 = [] →
      resolve_with_base w chain_name bt = fallback_and_assemble w chain_name wallet [])
    ∧ (fetch_last_txs_from_explorer w chain_name wallet 10 = none →
        fallback_and_assemble w chain_name wallet [] = ResolveOutcome.fallback_unavailable)
    ∧ (fetch_last_txs_from_explorer w chain_name wallet 10 = some [] →
        fallback_and_assemble w chain_name wallet [] = ResolveOutcome.no_activity)
    ∧ (∀ ets mapped, fetch_last_txs_from_explorer w chain_name wallet 10 = some ets →
        ets ≠ [] → map_explorer_list (explorer_get chain_name) ets = .ok mapped →
        fallback_and_assemble w chain_name wallet []
          = ResolveOutcome.success
              { wallet := wallet, chain := chain_name,
                txs := (pySortDesc mapped).take 10,
                tx_count := ((pySortDesc mapped).take 10).length, from_explorer := true })
    ∧ (∀ ctx, fallback_and_assemble w chain_name wallet [] = ResolveOutcome.success ctx →
        fetch_last_txs_from_explorer w chain_name wallet 10 ≠ none
        ∧ fetch_last_txs_from_explorer w chain_name wallet 10 ≠ some []) := by
  refine ⟨?_, ?_, ?_, ?_, ?_⟩
  · intro bt h1 h2 hscan
    unfold resolve_with_base
    rw [h1]
    simp only [h2]
    rw [hscan]
    simp
  · intro hfetch
    simp [fallback_and_assemble, hfetch]
  · intro hfetch
    simp [fallback_and_assemble, hfetch]
  · intro ets mapped hfetch hne hmap
    have hlen := map_explorer_list_length hmap
    have hmne : mapped ≠ [] := by
      intro hm
      subst hm
      exact hne (List.length_eq_zero.1 hlen.symm)
    obtain ⟨e, es, rfl⟩ := List.exists_cons_of_ne_nil hne
    obtain ⟨m, ms, rfl⟩ := List.exists_cons_of_ne_nil hmne
    simp [fallback_and_assemble, hfetch, assemble, hmap, List.isEmpty]
  · intro ctx h
    constructor
    · intro hf
      simp [fallback_and_assemble, hf] at h
    · intro hf
      simp [fallback_and_assemble, hf] at h

/-- Witness for C1: the missing-key world renders the configuration error and
the status-"0" world renders the no-activity error. -/
theorem C1_witness :
    fallback_and_assemble w1a "Ethereum Mainnet" "0xabcd" []
      = ResolveOutcome.fallback_unavailable
    ∧ fallback_and_assemble w1b "Ethereum Mainnet" "0xabcd" []
      = ResolveOutcome.no_activity :=
  ⟨(C1_explorer_outcomes w1a "Ethereum Mainnet" "0xabcd").2.1 (by decide),
   (C1_explorer_outcomes w1b "Ethereum Mainnet" "0xabcd").2.2.1 (by decide)⟩

/-- Counterexample for C1 as stated: a non-empty explorer answer does not
always yield a successful result — a row with unparseable `gas` aborts the
request with an uncaught `ValueError` instead. -/
theorem C1_cex :
    fetch_last_txs_from_explorer w1c "Ethereum Mainnet" "0xabcd" 10 = some [etBadGas]
    ∧ last10_from_tx w1c (some seedHash) none = ResolveOutcome.uncaught "ValueError" :=
  ⟨by decide, by decide⟩

theorem assemble_ne_invalid {wallet cn : String} {col : List TxInfo} {fe : Bool} :
    assemble wallet cn col fe ≠ ResolveOutcome.invalid_hash := by
  unfold assemble
  split
  · intro h; cases h
  · intro h; cases h

theorem fallback_ne_invalid {w : World} {cn wallet : String} {col : List TxInfo} :
    fallback_and_assemble w cn wallet col ≠ ResolveOutcome.invalid_hash := by
  unfold fallback_and_assemble
  split
  · split
    · intro h; cases h
    · split
      · intro h; cases h
      · split
        · intro h; cases h
        · exact assemble_ne_invalid
  · exact assemble_ne_invalid

theorem resolve_ne_invalid {w : World} {cn : String} {bt : Tx} :
    resolve_with_base w cn bt ≠ ResolveOutcome.invalid_hash := by
  unfold resolve_with_base
  split
  · intro h; cases h
  · exact fallback_ne_invalid

/-- C2 (amended): the resolver rejects a request as `invalid_hash` — with no
dependence on any node or explorer state — exactly when the stripped query is
non-empty and either lacks the `0x` prefix or is shorter than 10 characters.
Queries with the prefix and at least 10 characters proceed to the chain
search even when their length differs from 66 or they contain non-hex
characters. -/
theorem C2_validation (w : World) (q sc : Option String) :
    last10_from_tx w q sc = ResolveOutcome.invalid_hash
      ↔ (pyStrip (q.getD "") ≠ ""
          ∧ (strStartsWith (pyStrip (q.getD "")) "0x" = false
             ∨ (pyStrip (q.getD "")).length < 10)) := by
  unfold last10_from_tx
  dsimp only
  constructor
  · intro h
    split at h
    · cases h
    · rename_i h1
      split at h
      · rename_i h2
        exact ⟨h1, h2⟩
      · split at h
        · cases h
        · exact absurd h resolve_ne_invalid
  · intro ⟨h1, h2⟩
    rw [if_neg h1, if_pos h2]

/-- Witness for C2: a short `0x`-prefixed query is rejected as invalid. -/
theorem C2_witness :
    last10_from_tx ({} : World) (some "0xab") none = ResolveOutcome.invalid_hash :=
  (C2_validation {} (some "0xab") none).mpr (by decide)

/-- Counterexample for C2 as stated: the 12-character hash `0x1234567890`
(length different from 66) is not rejected — the resolver proceeds to the
chain search, whose network answers determine the outcome (`not_found` on an
unconfigured world, `no_source_addr` on a world whose node returns a
transaction for it). -/
theorem C2_cex :
    ("0x1234567890" : String).length = 12
    ∧ last10_from_tx ({} : World) (some "0x1234567890") none = ResolveOutcome.not_found
    ∧ last10_from_tx w2b (some "0x1234567890") none = ResolveOutcome.no_source_addr :=
  ⟨by decide, by decide, by decide⟩

/-- C6: the classifier applies its rules in priority order — empty (or
`"0x"`-only, i.e. empty byte sequence) call data gives Transfer, then the
ERC-20 `transfer` selector, then the ERC-721 `transferFrom` selector, then a
falsy `to` address gives Contract creation, else Contract Interaction; an
available entity label (configured key, truthy address, truthy label)
overrides the heuristic, and failed label lookups (oracle returning `none`)
degrade to the heuristic rather than failing classification. -/
theorem C6_classifier (w : World) (t : Tx) :
    ((tx_input_data t = "" ∨ tx_input_data t = "0x") → classify_heuristic t = "Transfer")
    ∧ (¬ (tx_input_data t = "" ∨ tx_input_data t = "0x") →
        (strStartsWith (tx_input_data t) "0xa9059cbb" = true
          ∨ strStartsWith (tx_input_data t) "a9059cbb" = true) →
        classify_heuristic t = "ERC-20 Transfer")
    ∧ (¬ (tx_input_data t = "" ∨ tx_input_data t = "0x") →
        ¬ (strStartsWith (tx_input_data t) "0xa9059cbb" = true
          ∨ strStartsWith (tx_input_data t) "a9059cbb" = true) →
        (strStartsWith (tx_input_data t) "0x23b872dd" = true
          ∨ strStartsWith (tx_input_data t) "23b872dd" = true) →
        classify_heuristic t = "ERC-721 Transfer")
    ∧ (¬ (tx_input_data t = "" ∨ tx_input_data t = "0x") →
        ¬ (strStartsWith (tx_input_data t) "0xa9059cbb" = true
          ∨ strStartsWith (tx_input_data t) "a9059cbb" = true) →
        ¬ (strStartsWith (tx_input_data t) "0x23b872dd" = true
          ∨ strStartsWith (tx_input_data t) "23b872dd" = true) →
        pyTruthy t.toAddr = false → classify_heuristic t = "Contract creation")
    ∧ (¬ (tx_input_data t = "" ∨ tx_input_data t = "0x") →
        ¬ (strStartsWith (tx_input_data t) "0xa9059cbb" = true
          ∨ strStartsWith (tx_input_data t) "a9059cbb" = true) →
        ¬ (strStartsWith (tx_input_data t) "0x23b872dd" = true
          ∨ strStartsWith (tx_input_data t) "23b872dd" = true) →
        pyTruthy t.toAddr = true → classify_heuristic t = "Contract Interaction")
    ∧ (arkham_key w = false → analyze_tx_source w t = classify_heuristic t)
    ∧ (∀ lbl : String, arkham_key w = true → pyTruthy t.fromAddr = true →
        w.arkham (t.fromAddr.getD "") = some lbl → lbl ≠ "" →
        analyze_tx_source w t = "Source: " ++ lbl)
    ∧ ((∀ a, w.arkham a = none) → analyze_tx_source w t = classify_heuristic t) := by
  refine ⟨?_, ?_, ?_, ?_, ?_, ?_, ?_, ?_⟩
  · intro h1
    simp [classify_heuristic, h1]
  · intro h1 h2
    simp only [classify_heuristic]
    rw [if_neg h1, if_pos h2]
  · intro h1 h2 h3
    simp only [classify_heuristic]
    rw [if_neg h1, if_neg h2, if_pos h3]
  · intro h1 h2 h3 h4
    simp only [classify_heuristic]
    rw [if_neg h1, if_neg h2, if_neg h3, if_pos h4]
  · intro h1 h2 h3 h4
    simp only [classify_heuristic]
    rw [if_neg h1, if_neg h2, if_neg h3, if_neg (by simp [h4])]
  · intro hak
    simp [analyze_tx_source, hak]
  · intro lbl hak hfrom harkham hlbl
    have haddr : t.fromAddr.getD "" ≠ "" := by
      simpa [pyTruthy, bne_iff_ne] using hfrom
    simp [analyze_tx_source, arkham_label_for, hak, hfrom, haddr, harkham, hlbl]
  · intro hnone
    simp [analyze_tx_source, arkham_label_for, hnone]

/-- Witness for C6: empty call data classifies as Transfer, an ERC-20
selector as ERC-20 Transfer, and a labelled address overrides. -/
theorem C6_witness :
    classify_heuristic ({} : Tx) = "Transfer"
    ∧ classify_heuristic txErc20 = "ERC-20 Transfer"
    ∧ analyze_tx_source wLbl txLbl = "Source: Binance" := by
  refine ⟨(C6_classifier {} {}).1 (Or.inl (by decide)), ?_, ?_⟩
  · exact (C6_classifier {} txErc20).2.1 (by decide) (by decide)
  · exact (C6_classifier wLbl txLbl).2.2.2.2.2.2.1 "Binance" (by decide) (by decide)
      (by decide) (by decide)

/-- C7: with a truthy chain hint only that chain is searched; without one the
registry's four chains are tried in their fixed insertion order; a chain on
which the seed transaction is found wins immediately and the chains after it
play no part in the result, while a missing/empty RPC url, a disconnected
node or a failed lookup merely advances the search to the next chain. -/
theorem C7_first_match (w : World) (tx_hash : String) :
    (∀ c : String, c ≠ "" → chains_to_search (some c) = [c])
    ∧ chains_to_search none = RPC_keys
    ∧ (RPC_ENDPOINTS w.env).map Prod.fst = RPC_keys
    ∧ (∀ (chain_name : String) (rest : List String) (rpc : String) (t : Tx),
        rpc_get w.env chain_name = some rpc → rpc ≠ "" →
        (w.node chain_name).connected = true →
        (w.node chain_name).get_transaction tx_hash = some t →
        find_base w tx_hash (chain_name :: rest) = some (chain_name, t))
    ∧ (∀ (chain_name : String) (rest : List String),
        ((rpc_get w.env chain_name).getD "" = ""
          ∨ (w.node chain_name).connected = false
          ∨ (w.node chain_name).get_transaction tx_hash = none) →
        find_base w tx_hash (chain_name :: rest) = find_base w tx_hash rest) := by
  refine ⟨?_, rfl, rfl, ?_, ?_⟩
  · intro c hc
    simp [chains_to_search, pyTruthy, hc]
  · intro cn rest rpc t hrpc hne hconn htx
    simp [find_base, hrpc, hne, hconn, htx]
  · intro cn rest hfail
    cases hr : rpc_get w.env cn with
    | none => simp [find_base, hr]
    | some r =>
      by_cases hre : r = ""
      · subst hre
        simp [find_base, hr]
      · rcases hfail with hf | hf | hf
        · exact absurd (by simpa [hr] using hf) hre
        · simp [find_base, hr, hre, hf]
        · simp [find_base, hr, hre, hf]

/-- Witness for C7: the seed is found on the first chain of `worldA` and the
search stops there. -/
theorem C7_witness :
    find_base worldA seedHash ["Ethereum Mainnet", "Sepolia Testnet"]
      = some ("Ethereum Mainnet", seedTxA) :=
  (C7_first_match worldA seedHash).2.2.2.1 "Ethereum Mainnet" ["Sepolia Testnet"]
    "http://node" seedTxA (by decide) (by decide) (by decide) (by decide)

/-- C8: the backward scan always terminates — it executes at most 8000 loop
iterations, and on exit either the 8000-block ceiling was reached, or the
block number dropped below zero, or 10 qualifying transactions were
collected; a failed block fetch counts as one examined block and the scan
continues at the next lower block number with the accumulator unchanged. -/
theorem C8_scan_bounded (w : World) (node : NodeState) (wallet : String) :
    (∀ (sb : Int) (c : List TxInfo), (scan_go w node wallet safety_limit sb c).2 ≤ 8000)
    ∧ (∀ (sb : Int) (c : List TxInfo),
        (scan_go w node wallet safety_limit sb c).2 = 8000
        ∨ sb - (scan_go w node wallet safety_limit sb c).2 < 0
        ∨ 10 ≤ (scan_go w node wallet safety_limit sb c).1.length)
    ∧ (∀ (fuel : Nat) (b : Int) (c : List TxInfo), node.get_block b = none →
        0 ≤ b → c.length < 10 →
        scan_go w node wallet (fuel + 1) b c
          = ((scan_go w node wallet fuel (b - 1) c).1,
             (scan_go w node wallet fuel (b - 1) c).2 + 1)) := by
  refine ⟨?_, ?_, ?_⟩
  · intro sb c
    exact scan_go_count_le w node wallet safety_limit sb c
  · intro sb c
    exact scan_go_stop w node wallet safety_limit sb c
  · intro fuel b c hgb hb hlen
    simp [scan_go, hgb, hb, hlen]

/-- Witness for C8: one failed fetch at block 0 is one examined block and
ends the scan. -/
theorem C8_witness : scan_go ({} : World) ({} : NodeState) "w" 1 0 [] = ([], 1) := by
  have h := (C8_scan_bounded {} {} "w").2.2 0 0 [] rfl (by decide) (by decide)
  exact h.trans rfl

/-- C9 (amended): registry lookups are exact-match and therefore
case-sensitive, not case-insensitive — each of the four configured names
resolves to its own entry and every other string (including other
capitalisations of a configured name) resolves to nothing; the registries
themselves are fixed literal tables whose key set never changes. -/
theorem C9_exact_lookup (env : String → Option String) (name : String) :
    (name ∉ RPC_keys → rpc_get env name = none ∧ explorer_get name = none)
    ∧ rpc_get env "Ethereum Mainnet" = env "WEB3_MAINNET"
    ∧ rpc_get env "Sepolia Testnet" = env "WEB3_SEPOLIA"
    ∧ rpc_get env "Polygon Mainnet" = env "WEB3_POLYGON"
    ∧ rpc_get env "Binance Smart Chain" = env "WEB3_BSC"
    ∧ (RPC_ENDPOINTS env).map Prod.fst = RPC_keys
    ∧ EXPLORER_APIS.map Prod.fst = RPC_keys := by
  refine ⟨?_, rfl, rfl, rfl, rfl, rfl, rfl⟩
  intro hmem
  simp only [RPC_keys, List.mem_cons, List.not_mem_nil, or_false, not_or] at hmem
  obtain ⟨h1, h2, h3, h4⟩ := hmem
  have e1 : (name == "Ethereum Mainnet") = false := beq_eq_false_iff_ne.2 h1
  have e2 : (name == "Sepolia Testnet") = false := beq_eq_false_iff_ne.2 h2
  have e3 : (name == "Polygon Mainnet") = false := beq_eq_false_iff_ne.2 h3
  have e4 : (name == "Binance Smart Chain") = false := beq_eq_false_iff_ne.2 h4
  constructor
  · simp [rpc_get, RPC_ENDPOINTS, List.lookup, e1, e2, e3, e4]
  · simp [explorer_get, EXPLORER_APIS, List.lookup, e1, e2, e3, e4]

/-- Witness for C9 (amended): an upper-cased variant of a configured name
resolves to nothing in both registries. -/
theorem C9_witness :
    rpc_get envA "ETHEREUM MAINNET" = none ∧ explorer_get "ETHEREUM MAINNET" = none :=
  (C9_exact_lookup envA "ETHEREUM MAINNET").1 (by decide)

/-- Counterexample for C9 as stated: changing only the capitalisation of a
configured chain name changes the lookup result, so lookups are not
case-insensitive. -/
theorem C9_cex :
    rpc_get envA "Ethereum Mainnet" = some "http://node"
    ∧ rpc_get envA "ethereum mainnet" = none
    ∧ explorer_get "Polygon Mainnet" ≠ none
    ∧ explorer_get "polygon mainnet" = none :=
  ⟨by decide, by decide, by decide, by decide⟩

theorem explorer_num_ok_strict {x : Option String} (h : explorer_num_ok x = true) :
    ∃ n, pyIntStrict x = .ok n := by
  cases x with
  | none => exact ⟨0, rfl⟩
  | some s =>
    simp only [explorer_num_ok, Bool.or_eq_true, beq_iff_eq] at h
    rcases h with h | h
    · subst h
      exact ⟨0, rfl⟩
    · obtain ⟨n, hn⟩ := Option.isSome_iff_exists.1 h
      by_cases hse : s = ""
      · subst hse
        simp [pyIntParse, parseDigits] at hn
      · exact ⟨n, by simp [pyIntStrict, hse, hn]⟩

theorem explorer_num_ok_ts {x : Option String} (h : explorer_num_ok x = true) :
    ∃ t, pyTsOpt x = .ok t := by
  cases x with
  | none => exact ⟨none, rfl⟩
  | some s =>
    simp only [explorer_num_ok, Bool.or_eq_true, beq_iff_eq] at h
    rcases h with h | h
    · subst h
      exact ⟨none, rfl⟩
    · obtain ⟨n, hn⟩ := Option.isSome_iff_exists.1 h
      by_cases hse : s = ""
      · exact ⟨none, by simp [pyTsOpt, hse]⟩
      · exact ⟨some n, by simp [pyTsOpt, hse, hn]⟩

/-- C10 (amended): in the explorer-row mapping, a missing or unparseable
`value` becomes 0, a missing `blockNumber` becomes block 0, and a missing
`timeStamp` becomes an absent timestamp; the mapping of a row succeeds
whenever its `gas`, `blockNumber` and `timeStamp` are absent, empty or
parseable — but it is not total: only the `value` parse is
exception-guarded, and an unparseable `gas`, `blockNumber` or truthy
`timeStamp` aborts the resolution (see the counterexample). -/
theorem C10_explorer_mapping (cfg : ExplorerCfg) (et : ExplorerTx) :
    (∀ r : TxInfo, map_explorer_tx (some cfg) et = .ok r →
        r.value_wei = pyIntOfStrOr0 et.value
        ∧ (et.value = none → r.value_wei = 0)
        ∧ (∀ s, et.value = some s → pyIntParse s = none → r.value_wei = 0)
        ∧ (et.blockNumber = none → r.block = 0)
        ∧ (et.timeStamp = none → r.timestamp = none))
    ∧ (explorer_num_ok et.gas = true → explorer_num_ok et.blockNumber = true →
        explorer_num_ok et.timeStamp = true →
        exceptOk (map_explorer_tx (some cfg) et) = true) := by
  constructor
  · intro r h
    cases hgas : pyIntStrict et.gas with
    | error e => simp [map_explorer_tx, hgas] at h
    | ok gasV =>
      cases hblock : pyIntStrict et.blockNumber with
      | error e => simp [map_explorer_tx, hgas, hblock] at h
      | ok blockV =>
        cases hts : pyTsOpt et.timeStamp with
        | error e => simp [map_explorer_tx, hgas, hblock, hts] at h
        | ok ts =>
          simp only [map_explorer_tx, hgas, hblock, hts] at h
          injection h with h2
          subst h2
          refine ⟨rfl, fun hv => ?_, fun s hs hp => ?_, fun hb => ?_, fun ht => ?_⟩
          · simp [pyIntOfStrOr0, hv]
          · simp only [pyIntOfStrOr0, hs]
            split
            · rfl
            · simp [hp]
          · rw [hb] at hblock
            injection hblock with h3
            simpa using h3.symm
          · rw [ht] at hts
            injection hts with h3
            simpa using h3.symm
  · intro hgas hblock hts
    obtain ⟨g, hg⟩ := explorer_num_ok_strict hgas
    obtain ⟨b, hb⟩ := explorer_num_ok_strict hblock
    obtain ⟨t2, ht⟩ := explorer_num_ok_ts hts
    simp [map_explorer_tx, hg, hb, ht, exceptOk]

/-- Witness for C10: a row whose `value` is unparseable but whose other
numeric fields are absent maps successfully. -/
theorem C10_witness : exceptOk (map_explorer_tx (some ethCfg) etGood10) = true :=
  (C10_explorer_mapping ethCfg etGood10).2 (by decide) (by decide) (by decide)

/-- Counterexample for C10 as stated: a row with an unparseable
`blockNumber` does not map to block 0 — the unguarded `int(...)` raises and
the mapping aborts with `ValueError`. -/
theorem C10_cex :
    etBadBlock.blockNumber = some "xyz"
    ∧ map_explorer_tx (explorer_get "Ethereum Mainnet") etBadBlock
        = Except.error "ValueError" :=
  ⟨rfl, rfl⟩
